import Mathlib

/-!
Verification of the gpgpu-Schrodinger FDTD solver kernels.

The repository drives a 1D Schrödinger FDTD simulation from JavaScript, with the
numerical kernels written as WGSL compute shaders (the newer solver variants) and
GLSL fragment shaders (the older WebGL variants).  This file gives a shallow
embedding of those kernels and of the JavaScript orchestration code:

* buffers (`array<vec2f>` / float textures) become total functions `ℕ → α × α`
  holding (real, imaginary) pairs;
* WGSL `u32` arithmetic is `ℕ` arithmetic modulo 2^32, made explicit wherever
  overflow or underflow can occur;
* `f32` arithmetic is embedded as arithmetic in an arbitrary field `α`
  (instantiated with `ℝ` or `ℚ` in the theorems; rounding is out of scope);
  the transcendental `f32` builtins (`atan`, `cos`, `sin`, `exp`, `pow`) are
  abstracted as an explicit operations structure so that formula-shape facts can
  be proved without fixing an interpretation;
* the JavaScript buffer-rotation state machines are embedded as explicit state
  types with step functions.

Each kernel definition is translated line by line from its shader source, which
is quoted in the corresponding doc comment.
-/

namespace GpgpuSchrodinger

/-- Size of the WGSL `u32` value space: 2^32. -/
def u32Size : ℕ := 4294967296

/-- WGSL `u32` subtraction of one: `n - 1` wraps modularly, so `0 - 1 = 4294967295`. -/
def u32SubOne (n : ℕ) : ℕ := (n + 4294967295) % u32Size

/-- Right-neighbor lookup index used by the stencil kernels:
`min(index+1, xResolution-1)` with both operands `u32`
(SchrodingerTuned.js line 241, part_005 line 287, part_007 lines 309/336). -/
def rightNeighborIndex (i n : ℕ) : ℕ := min ((i + 1) % u32Size) (u32SubOne n)

/-- Left-neighbor lookup index used by the stencil kernels:
`max(index-1, 0)` with `index : u32`
(SchrodingerTuned.js line 242, part_005 line 288, part_007 lines 310/337).
The subtraction happens in `u32` before the `max` is taken. -/
def leftNeighborIndex (i : ℕ) : ℕ := max (u32SubOne i) 0

/-! ### Spatial-step derivations, one per kernel (claim C2)

Each definition embeds the single line of the kernel that derives the spatial
step `dx` from the stored grid parameters `length` and `xResolution`. -/

/-- `let dx = parameters.length / f32(parameters.xResolution-1)` in the two-buffer
WGSL kernel `timeStep` of SchrodingerTuned.js (line 238); `xResolution-1` is `u32`. -/
def dxTunedKernel {α : Type*} [Field α] (length : α) (xResolution : ℕ) : α :=
  length / (u32SubOne xResolution : α)

/-- `let dx = parameters.length / f32(parameters.xResolution-1)` in the three-buffer
leapfrog WGSL kernel `timeStep` of part_005 (line 281). -/
def dxLeapfrogKernel {α : Type*} [Field α] (length : α) (xResolution : ℕ) : α :=
  length / (u32SubOne xResolution : α)

/-- `let dx = parameters.length / f32(xResolution-1)` in the fused single-workgroup
WGSL kernel `timeSteps` of part_004 (line 271), using the override constant. -/
def dxWorkgroupKernel {α : Type*} [Field α] (length : α) (xResolution : ℕ) : α :=
  length / (u32SubOne xResolution : α)

/-- `let dx = parameters.length / f32(parameters.xResolution-1)` in the staggered
single-buffer WGSL kernels of part_007 (lines 304 and 331). -/
def dxStaggeredKernel {α : Type*} [Field α] (length : α) (xResolution : ℕ) : α :=
  length / (u32SubOne xResolution : α)

/-- `let dx = parameters.length / f32(parameters.xResolution-1)` in the WGSL Mur
boundary shaders (part_002 line 315, part_009 lines 83 and 97). -/
def dxMurKernel {α : Type*} [Field α] (length : α) (xResolution : ℕ) : α :=
  length / (u32SubOne xResolution : α)

/-- `dx = length/float(xResolution)` in the GLSL fragment shader built by
`createProgram` in Schrodinger.js (line 84); `xResolution` is a GLSL `int`
uniform, so no wrap is involved. -/
def dxSchrodingerGL {α : Type*} [Field α] (length : α) (xResolution : ℕ) : α :=
  length / (xResolution : α)

/-- `dx = length/float(xResolution)` in the GLSL fragment shader built by
`createProgram` in SchrodingerMurBoundary.js (line 82). -/
def dxMurBoundaryGL {α : Type*} [Field α] (length : α) (xResolution : ℕ) : α :=
  length / (xResolution : α)

/-! ### Three-buffer leapfrog kernel (part_005, claim C3) -/

/-- One full dispatch of the three-buffer leapfrog WGSL kernel `timeStep`
(part_005 lines 272-297).  Every invocation `index` with
`index >= parameters.xResolution` returns early, leaving the write buffer's
previous contents `updPrev` in place; otherwise it writes

```
updatedWaveFunction[index].x = oldWaveFunctionAtX.x
    - ((Ψ⁺.y - 2Ψ.y + Ψ⁻.y) / dx2 - twoV*Ψ.y) * dt
updatedWaveFunction[index].y = oldWaveFunctionAtX.y
    + ((Ψ⁺.x - 2Ψ.x + Ψ⁻.x) / dx2 - twoV*Ψ.x) * dt
```

with `dx2 = dx*dx`, `twoV = 2*potential[index]`, and the clamped neighbor
lookups `Ψ⁺ = waveFunction[min(index+1, xResolution-1)]`,
`Ψ⁻ = waveFunction[max(index-1, 0)]`.  `oldWaveFunction` and `waveFunction` are
read-only bindings and `updatedWaveFunction` is the distinct read-write binding;
the three bind groups of `init` always route three distinct buffers to them. -/
def leapfrogTimeStep {α : Type*} [Field α] (dt length : α) (xResolution : ℕ)
    (potential : ℕ → α) (oldWaveFunction waveFunction updPrev : ℕ → α × α) : ℕ → α × α :=
  fun index =>
    if xResolution ≤ index then updPrev index
    else
      let dx := dxLeapfrogKernel length xResolution
      let dx2 := dx * dx
      let twoV := 2 * potential index
      let oldWaveFunctionAtX := oldWaveFunction index
      let waveFunctionAtX := waveFunction index
      let waveFunctionAtXPlusDx := waveFunction (rightNeighborIndex index xResolution)
      let waveFunctionAtXMinusDx := waveFunction (leftNeighborIndex index)
      (oldWaveFunctionAtX.1 -
         ((waveFunctionAtXPlusDx.2 - 2 * waveFunctionAtX.2 + waveFunctionAtXMinusDx.2) / dx2
            - twoV * waveFunctionAtX.2) * dt,
       oldWaveFunctionAtX.2 +
         ((waveFunctionAtXPlusDx.1 - 2 * waveFunctionAtX.1 + waveFunctionAtXMinusDx.1) / dx2
            - twoV * waveFunctionAtX.1) * dt)

/-! ### Closed-form Gaussian wave packet (parts 001 and 003, claim C4) -/

/-- Abstract interface for the transcendental `f32` builtins used by the wave
packet shader, plus its `PI` constant.  Keeping them abstract lets formula-shape
facts be stated over any linear ordered field. -/
structure TranscendentalOps (α : Type*) where
  atan : α → α
  cos : α → α
  sin : α → α
  exp : α → α
  pow : α → α → α
  pi : α

/-- `computePsi(globalID, t)` from the WGSL wave-packet shader (part_001 lines
145-162; part_003 lines 115-132 is textually identical):

```
let x = f32(globalID) * parameters.length / f32(parameters.xResolution-1);
let w2 = wavePacketParameters.w * wavePacketParameters.w;
let p0 = wavePacketParameters.k;
let deltaX = x - wavePacketParameters.x0;
let theta = atan(2.0*t/w2)/2.0;
let phi = -theta-p0*p0*t/2.0;
let a = w2*w2 + 4.0*t*t;
let b = (deltaX-p0*t)*(deltaX-p0*t);
let c = phi + p0*deltaX + 2.0*t*b/a;
let phase = vec2(cos(c), sin(c));
let magnitude = pow(2.0*w2/(PI*a), 0.25) * exp(-b*w2/a);
return magnitude*phase;
```

The shader's `const PI` literal is embedded as `ops.pi`. -/
def computePsi {α : Type*} [Field α] (ops : TranscendentalOps α)
    (length : α) (xResolution : ℕ) (x0 w k : α) (globalID : ℕ) (t : α) : α × α :=
  let x := (globalID : α) * length / ((u32SubOne xResolution : ℕ) : α)
  let w2 := w * w
  let p0 := k
  let deltaX := x - x0
  let theta := ops.atan (2 * t / w2) / 2
  let phi := -theta - p0 * p0 * t / 2
  let a := w2 * w2 + 4 * t * t
  let b := (deltaX - p0 * t) * (deltaX - p0 * t)
  let c := phi + p0 * deltaX + 2 * t * b / a
  let magnitude := ops.pow (2 * w2 / (ops.pi * a)) 0.25 * ops.exp (-b * w2 / a)
  (magnitude * ops.cos c, magnitude * ops.sin c)

/-- The closed-form free-particle Gaussian solution exactly as the specification
states it, for comparison with `computePsi`:
`theta = 0.5*atan(2t/w^2)`, `phi = -theta - k^2*t/2`, `a = w^4 + 4t^2`,
`b = (x - x0 - k*t)^2`, `c = phi + k*(x - x0) + 2*t*b/a`,
`Psi(x,t) = (2w^2/(pi*a))^(1/4) * exp(-b*w^2/a) * (cos c, sin c)`,
evaluated at the grid point `x = i*L/(N-1)`. -/
def specPsi {α : Type*} [Field α] (ops : TranscendentalOps α)
    (length : α) (xResolution : ℕ) (x0 w k : α) (i : ℕ) (t : α) : α × α :=
  let x := (i : α) * length / ((xResolution - 1 : ℕ) : α)
  let theta := 0.5 * ops.atan (2 * t / w ^ 2)
  let phi := -theta - k ^ 2 * t / 2
  let a := w ^ 4 + 4 * t ^ 2
  let b := (x - x0 - k * t) ^ 2
  let c := phi + k * (x - x0) + 2 * t * b / a
  let magnitude := ops.pow (2 * w ^ 2 / (ops.pi * a)) (1 / 4) * ops.exp (-b * w ^ 2 / a)
  (magnitude * ops.cos c, magnitude * ops.sin c)

/-! ### Two-texture ping-pong orchestration (Schrodinger.js, claim C5)

The WebGL first-order solver keeps `textures[0]` and `textures[1]` (with
matching framebuffers `fbos[0]`, `fbos[1]`) and a `step` variable initialised to
0.  Texture identities are embedded as their indices 0 and 1. -/

/-- Orchestration state of the Schrodinger.js solver: the private `step`
variable (always 0 or 1 in the source, maintained by `(step+1)%2`). -/
structure PingPongState where
  step : ℕ
deriving DecidableEq

/-- Initial state: the constructor tail of Schrodinger.js sets `step = 0`. -/
def pingPongInit : PingPongState := ⟨0⟩

/-- One call of `this.timestep()` (Schrodinger.js lines 133-165):
it binds `fbos[step]` as the render target (so the fragment shader writes
texture `step`), then advances `step = (step+1)%2`, then binds
`textures[step]` as the `waveFunction` source sampler and draws.
Returns (state after the call, index of the texture written,
index of the texture read). -/
def pingPongTimestep (s : PingPongState) : PingPongState × ℕ × ℕ :=
  let written := s.step
  let stepNext := (s.step + 1) % 2
  (⟨stepNext⟩, written, stepNext)

/-- State after `k` successive `timestep()` calls starting from the freshly
constructed object. -/
def pingPongRun : ℕ → PingPongState
  | 0 => pingPongInit
  | k + 1 => (pingPongTimestep (pingPongRun k)).1

/-- `this.getRenderedTexture()` (Schrodinger.js lines 173-176):
`return textures[(step+1)%2]`. -/
def getRenderedTexture (s : PingPongState) : ℕ := (s.step + 1) % 2

/-! ### Single-workgroup solver capability handling (part_004, claim C6) -/

/-- The two distinguishable errors thrown by `step()` of the single-workgroup
solver (part_004 lines 472-478), one per WebGPU limit name interpolated into
the `Error` message. -/
inductive LimitError where
  | workgroupSizeX
  | invocationsPerWorkgroup
deriving DecidableEq

/-- Result of `init()` of the single-workgroup solver (part_004 lines 305-321
and the guarded body 319-438).  `checkLimit(name, target)` resolves to
`adapter.limits[name] >= target` (WebGPUCompute.js lines 122-127); `init`
stores both answers and builds the pipeline only when both hold.  On this path
`init` itself throws nothing: a missing limit is only recorded in the flags
returned by `isWorkgroupSizeLimitAvailable` / `isInvocationLimitAvailable`. -/
structure WorkgroupInitState where
  workgroupSizeLimitAvailable : Bool
  invocationLimitAvailable : Bool
  pipelineBuilt : Bool
deriving DecidableEq

/-- `init()` of part_004, given the adapter's limit values and the requested
`xResolution`. -/
def workgroupInit (maxComputeWorkgroupSizeX maxComputeInvocationsPerWorkgroup
    xResolution : ℕ) : WorkgroupInitState :=
  let wg := decide (xResolution ≤ maxComputeWorkgroupSizeX)
  let inv := decide (xResolution ≤ maxComputeInvocationsPerWorkgroup)
  { workgroupSizeLimitAvailable := wg
    invocationLimitAvailable := inv
    pipelineBuilt := wg && inv }

/-- `step()` of part_004 (lines 470-492): it throws the workgroup-size error if
that flag is false, else the invocations error if that flag is false, else
encodes and submits the dispatch (embedded as `Except.ok`). -/
def workgroupStep (s : WorkgroupInitState) : Except LimitError Unit :=
  if ¬ s.workgroupSizeLimitAvailable then .error .workgroupSizeX
  else if ¬ s.invocationLimitAvailable then .error .invocationsPerWorkgroup
  else .ok ()

/-! ### Mur absorbing boundary kernels (part_002 and part_009, claim C7) -/

/-- Edge index computed by both Mur boundary shaders for invocation `index`
(0 or 1): `let sotrageBufferIndex = index*(parameters.xResolution-1)` in `u32`
(part_002 line 313, part_009 lines 81/95). -/
def murEdgeIndex (index n : ℕ) : ℕ := (index * u32SubOne n) % u32Size

/-- `let offset = 1 - 2*index` evaluated in `u32` (part_002 line 314,
part_009 lines 82/96): 1 for the left edge, `2^32 - 1` for the right edge. -/
def murOffset (index : ℕ) : ℕ := (1 + u32Size - (2 * index) % u32Size) % u32Size

/-- Interior-neighbor index `sotrageBufferIndex + offset`, again `u32`. -/
def murNeighborIndex (index n : ℕ) : ℕ := (murEdgeIndex index n + murOffset index) % u32Size

/-- Combined effect of the one two-thread workgroup of `recomputeBoundary`
(part_002 lines 308-320).  Each invocation `index ∈ {0, 1}` writes

```
updatedWaveFunction[sotrageBufferIndex] = waveFunction[sotrageBufferIndex+offset]
     + ((phaseVelocity*parameters.dt-dx)/(phaseVelocity*parameters.dt+dx))
        *(updatedWaveFunction[sotrageBufferIndex+offset]-waveFunction[sotrageBufferIndex]);
```

`waveFunction` holds the pre-stencil-update values at time t (a read-only
binding) and `updatedWaveFunction` the freshly written values at t+Δt.  The two
invocations write distinct cells whenever `xResolution ≥ 2`, so their combined
effect is order-independent; all other cells keep their `updatedWaveFunction`
contents.  The kernel has no failure path. -/
def recomputeBoundary {α : Type*} [Field α] (phaseVelocity dt length : α)
    (xResolution : ℕ) (waveFunction updatedWaveFunction : ℕ → α × α) : ℕ → α × α :=
  let dx := dxMurKernel length xResolution
  let coef := (phaseVelocity * dt - dx) / (phaseVelocity * dt + dx)
  let newValue := fun index : ℕ =>
    ((waveFunction (murNeighborIndex index xResolution)).1 +
       coef * ((updatedWaveFunction (murNeighborIndex index xResolution)).1 -
         (waveFunction (murEdgeIndex index xResolution)).1),
     (waveFunction (murNeighborIndex index xResolution)).2 +
       coef * ((updatedWaveFunction (murNeighborIndex index xResolution)).2 -
         (waveFunction (murEdgeIndex index xResolution)).2))
  fun j =>
    if j = murEdgeIndex 0 xResolution then newValue 0
    else if j = murEdgeIndex 1 xResolution then newValue 1
    else updatedWaveFunction j

/-- Combined effect of the one two-thread workgroup of `recomputeRealBoundary`
(part_009 lines 76-88), the staggered-scheme variant.  Here `waveFunction` is
the in-place buffer whose real components were just advanced by
`realPartTimeStep`, and `oldWaveFunction` retains the pre-update values:

```
waveFunction[sotrageBufferIndex].x = oldWaveFunction[sotrageBufferIndex+offset].x
     + ((phaseVelocity*parameters.dt-dx)/(phaseVelocity*parameters.dt+dx))
        *(waveFunction[sotrageBufferIndex+offset].x-oldWaveFunction[sotrageBufferIndex].x);
```

Only the real component of the two edge cells is written. -/
def recomputeRealBoundary {α : Type*} [Field α] (phaseVelocity dt length : α)
    (xResolution : ℕ) (waveFunction oldWaveFunction : ℕ → α × α) : ℕ → α × α :=
  let dx := dxMurKernel length xResolution
  let coef := (phaseVelocity * dt - dx) / (phaseVelocity * dt + dx)
  let newValue := fun index : ℕ =>
    ((oldWaveFunction (murNeighborIndex index xResolution)).1 +
       coef * ((waveFunction (murNeighborIndex index xResolution)).1 -
         (oldWaveFunction (murEdgeIndex index xResolution)).1),
     (waveFunction (murEdgeIndex index xResolution)).2)
  fun j =>
    if j = murEdgeIndex 0 xResolution then newValue 0
    else if j = murEdgeIndex 1 xResolution then newValue 1
    else waveFunction j

/-! ### Staggered single-buffer kernels (part_007, claim C8)

Per pass, each invocation writes one component of `waveFunction[index]` and the
same component of `oldWaveFunction[index]`, while reading only the other
component from its neighbors.  As writes and cross-invocation reads touch
disjoint components, the data-race-free parallel semantics is the simultaneous
map from the pre-pass buffers, which is what these definitions compute; they
return the pair (new `waveFunction`, new `oldWaveFunction`). -/

/-- `realPartTimeStep` of part_007 (lines 318-343):

```
let V = parameters.potential[index];
let waveFunctionAtX = waveFunction[index];
let waveFunctionAtXPlusDx = waveFunction[min(index+1, parameters.xResolution-1)];
let waveFunctionAtXMinusDx = waveFunction[max(index-1, 0)];
oldWaveFunction[index].x = waveFunctionAtX.x;
waveFunction[index].x = waveFunctionAtX.x
    - ((waveFunctionAtXPlusDx.y - 2.0*waveFunctionAtX.y + waveFunctionAtXMinusDx.y)
        / dx22 - V*waveFunctionAtX.y) * parameters.dt;
```

with `dx22 = 2.0*dx*dx`; invocations with `index >= xResolution` return early. -/
def realPartTimeStep {α : Type*} [Field α] (dt length : α) (xResolution : ℕ)
    (potential : ℕ → α) (waveFunction oldWaveFunction : ℕ → α × α) :
    (ℕ → α × α) × (ℕ → α × α) :=
  (fun index =>
    if xResolution ≤ index then waveFunction index
    else
      let dx := dxStaggeredKernel length xResolution
      let dx22 := 2 * dx * dx
      let v := potential index
      let waveFunctionAtX := waveFunction index
      let waveFunctionAtXPlusDx := waveFunction (rightNeighborIndex index xResolution)
      let waveFunctionAtXMinusDx := waveFunction (leftNeighborIndex index)
      (waveFunctionAtX.1 -
         ((waveFunctionAtXPlusDx.2 - 2 * waveFunctionAtX.2 + waveFunctionAtXMinusDx.2) / dx22
            - v * waveFunctionAtX.2) * dt,
       waveFunctionAtX.2),
   fun index =>
    if xResolution ≤ index then oldWaveFunction index
    else ((waveFunction index).1, (oldWaveFunction index).2))

/-- `imaginaryPartTimeStep` of part_007 (lines 295-316), the mirror pass:

```
oldWaveFunction[index].y = waveFunctionAtX.y;
waveFunction[index].y = waveFunctionAtX.y
    + ((waveFunctionAtXPlusDx.x - 2.0*waveFunctionAtX.x + waveFunctionAtXMinusDx.x)
        / dx22 - V*waveFunctionAtX.x) * parameters.dt;
```
-/
def imaginaryPartTimeStep {α : Type*} [Field α] (dt length : α) (xResolution : ℕ)
    (potential : ℕ → α) (waveFunction oldWaveFunction : ℕ → α × α) :
    (ℕ → α × α) × (ℕ → α × α) :=
  (fun index =>
    if xResolution ≤ index then waveFunction index
    else
      let dx := dxStaggeredKernel length xResolution
      let dx22 := 2 * dx * dx
      let v := potential index
      let waveFunctionAtX := waveFunction index
      let waveFunctionAtXPlusDx := waveFunction (rightNeighborIndex index xResolution)
      let waveFunctionAtXMinusDx := waveFunction (leftNeighborIndex index)
      (waveFunctionAtX.1,
       waveFunctionAtX.2 +
         ((waveFunctionAtXPlusDx.1 - 2 * waveFunctionAtX.1 + waveFunctionAtXMinusDx.1) / dx22
            - v * waveFunctionAtX.1) * dt),
   fun index =>
    if xResolution ≤ index then oldWaveFunction index
    else ((oldWaveFunction index).1, (waveFunction index).2))

/-! ### Diagnostics (DumpSchrodinger.js, claim C9)

The JavaScript routines take a flat `Float32Array` holding `nPoints` (real,
imaginary) pairs: `wavefunction[2*i]` is the real and `wavefunction[2*i+1]` the
imaginary part of sample `i`.  The embedding passes the samples as a function
`ℕ → α × α` together with `nPoints = wavefunction.length / 2`. -/

/-- Squared modulus of one sample, `re*re + im*im`, as accumulated by both
integration routines. -/
def normSq {α : Type*} [Field α] (p : α × α) : α := p.1 * p.1 + p.2 * p.2

/-- `integrateWaveFunction(wavefunction, length)` (DumpSchrodinger.js lines
93-106): `nIntervals = wavefunction.length/2 - 1`, `dx = length/nIntervals`,
and for `i` from 0 to `nIntervals - 1` it accumulates
`((|Ψᵢ|² + |Ψᵢ₊₁|²)/2) * dx`. -/
def integrateWaveFunction {α : Type*} [Field α] (wavefunction : ℕ → α × α)
    (nPoints : ℕ) (length : α) : α :=
  let nIntervals := nPoints - 1
  let dx := length / (nIntervals : α)
  ∑ i ∈ Finset.range nIntervals,
    ((normSq (wavefunction i) + normSq (wavefunction (i + 1))) / 2) * dx

/-- `simpson(wavefunction, length)` (DumpSchrodinger.js lines 67-83):
`sum` starts from `|Ψ₀|²`, the loop `for (let i=1; i<nPoints-2; i++)` adds
`((i%2+1)*2) * |Ψᵢ|²` (4 for odd `i`, 2 for even `i`), then `|Ψ_{nPoints-1}|²`
is added and the total is scaled by `length/(3*(nPoints-1))`. -/
def simpson {α : Type*} [Field α] (wavefunction : ℕ → α × α)
    (nPoints : ℕ) (length : α) : α :=
  let sum := normSq (wavefunction 0)
    + (∑ i ∈ Finset.Ico 1 (nPoints - 2), ((i % 2 + 1) * 2 : ℕ) * normSq (wavefunction i))
    + normSq (wavefunction (nPoints - 1))
  length / (3 * ((nPoints - 1 : ℕ) : α)) * sum

/-- Composite Simpson's rule over `nPoints` samples as the claim states it:
`(dx/3) * (|Ψ₀|² + 4|Ψ₁|² + 2|Ψ₂|² + ... + 2|Ψ_{N-3}|² + 4|Ψ_{N-2}|² + |Ψ_{N-1}|²)`
with `dx = length/(nPoints-1)`, i.e. every interior sample `1 ≤ i ≤ N-2`
weighted 4 when `i` is odd and 2 when `i` is even. -/
def specSimpson {α : Type*} [Field α] (wavefunction : ℕ → α × α)
    (nPoints : ℕ) (length : α) : α :=
  let dx := length / ((nPoints - 1 : ℕ) : α)
  dx / 3 * (normSq (wavefunction 0)
    + (∑ i ∈ Finset.Ico 1 (nPoints - 1),
        (if i % 2 = 1 then (4 : α) else 2) * normSq (wavefunction i))
    + normSq (wavefunction (nPoints - 1)))

/-! ### Tuned two-buffer dispatch order (SchrodingerTuned.js, claim C10) -/

/-- The two wave-function bind groups created by `init` of SchrodingerTuned.js
(lines 352-385), as (index of the buffer bound read-only at binding 0,
index of the buffer bound read-write at binding 1):
bind group 0 reads buffer 0 and writes buffer 1; bind group 1 reads buffer 1
and writes buffer 0. -/
def waveFunctionBindGroup (g : ℕ) : ℕ × ℕ :=
  if g = 0 then (0, 1) else (1, 0)

/-- The dispatch sequence queued by one call of `step(count)` of
SchrodingerTuned.js (lines 418-437): `#running` is set to true on entry, then
`for (let i=0; i<count && this.#running; i++)` binds
`waveFunctionBindGroup[i%2]` and dispatches.  The loop counter `i` is local to
the call and no rotation index is stored on the object, so the sequence depends
only on `count`, never on earlier calls. -/
def stepDispatches (count : ℕ) : List (ℕ × ℕ) :=
  (List.range count).map (fun i => waveFunctionBindGroup (i % 2))

/-- A concrete rational instantiation of `TranscendentalOps`, used to exercise
the formula-shape theorems on computable inputs. -/
def sampleOps : TranscendentalOps ℚ :=
  { atan := fun x => x + 1
    cos := fun x => 2 * x
    sin := fun x => 3 * x
    exp := fun x => x * x
    pow := fun x y => x + y
    pi := 3 }

/-! ## Theorems -/

/-- C1: the claim asserts that `max(index-1, 0)` clamps the left-neighbor
lookup into `[0, N-1]` with no underflow at `i = 0`.  In the shaders `index` is
`u32`, so `0 - 1` wraps to `4294967295` before `max` is applied, and the
computed left-neighbor index at `i = 0` is `4294967295`, far outside the grid
`[0, 3]` of an `N = 4` run; the `min` clamp of the right neighbor does stay in
range. -/
theorem left_neighbor_lookup_underflows_at_zero :
    leftNeighborIndex 0 = 4294967295 ∧ ¬ leftNeighborIndex 0 < 4 ∧
    rightNeighborIndex 3 4 = 3 ∧ rightNeighborIndex 0 4 = 1 := by
  decide

/-- C2 counterexample: the GLSL kernel of Schrodinger.js derives
`dx = length/float(xResolution)`, which at `L = 1`, `N = 4` is `1/4`, not the
claimed `L/(N-1) = 1/3`; the WGSL leapfrog kernel does produce `1/3`. -/
theorem schrodingerGL_dx_differs_from_claim :
    dxSchrodingerGL (1 : ℚ) 4 ≠ (1 : ℚ) / ((4 - 1 : ℕ) : ℚ) ∧
    dxLeapfrogKernel (1 : ℚ) 4 = (1 : ℚ) / ((4 - 1 : ℕ) : ℚ) := by
  constructor <;> norm_num [dxSchrodingerGL, dxLeapfrogKernel, u32SubOne, u32Size]

/-- C2 amended: every kernel derives the spatial step from the stored grid
parameters `length` and `xResolution` alone, but not all with the same formula:
the WGSL compute kernels (tuned two-buffer, leapfrog, single-workgroup,
staggered, Mur boundary) all use `dx = L/(N-1)`, while the WebGL fragment
shaders of Schrodinger.js and SchrodingerMurBoundary.js use `dx = L/N`. -/
theorem dx_derivations {α : Type*} [Field α] (length : α) (xResolution : ℕ)
    (h1 : 1 ≤ xResolution) (h32 : xResolution ≤ 4294967295) :
    dxTunedKernel length xResolution = length / ((xResolution - 1 : ℕ) : α) ∧
    dxLeapfrogKernel length xResolution = length / ((xResolution - 1 : ℕ) : α) ∧
    dxWorkgroupKernel length xResolution = length / ((xResolution - 1 : ℕ) : α) ∧
    dxStaggeredKernel length xResolution = length / ((xResolution - 1 : ℕ) : α) ∧
    dxMurKernel length xResolution = length / ((xResolution - 1 : ℕ) : α) ∧
    dxSchrodingerGL length xResolution = length / (xResolution : α) ∧
    dxMurBoundaryGL length xResolution = length / (xResolution : α) := by
  have h : u32SubOne xResolution = xResolution - 1 := by
    unfold u32SubOne u32Size; omega
  exact ⟨by rw [dxTunedKernel, h], by rw [dxLeapfrogKernel, h],
    by rw [dxWorkgroupKernel, h], by rw [dxStaggeredKernel, h],
    by rw [dxMurKernel, h], rfl, rfl⟩

/-- Witness for `dx_derivations` at `L = 2`, `N = 5` over `ℚ`. -/
theorem dx_derivations_witness :
    ((1 : ℕ) ≤ 5 ∧ (5 : ℕ) ≤ 4294967295) ∧
    (dxTunedKernel (2 : ℚ) 5 = 2 / ((5 - 1 : ℕ) : ℚ) ∧
     dxLeapfrogKernel (2 : ℚ) 5 = 2 / ((5 - 1 : ℕ) : ℚ) ∧
     dxWorkgroupKernel (2 : ℚ) 5 = 2 / ((5 - 1 : ℕ) : ℚ) ∧
     dxStaggeredKernel (2 : ℚ) 5 = 2 / ((5 - 1 : ℕ) : ℚ) ∧
     dxMurKernel (2 : ℚ) 5 = 2 / ((5 - 1 : ℕ) : ℚ) ∧
     dxSchrodingerGL (2 : ℚ) 5 = 2 / ((5 : ℕ) : ℚ) ∧
     dxMurBoundaryGL (2 : ℚ) 5 = 2 / ((5 : ℕ) : ℚ)) :=
  ⟨⟨by decide, by decide⟩, dx_derivations 2 5 (by decide) (by decide)⟩

/-- Rotation-variable invariant for Schrodinger.js: after `k` calls the private
`step` variable holds `k % 2`. -/
theorem pingPongRun_step (k : ℕ) : (pingPongRun k).step = k % 2 := by
  induction k with
  | zero => rfl
  | succ n ih =>
    show ((pingPongRun n).step + 1) % 2 = (n + 1) % 2
    rw [ih]
    omega

/-- C5 counterexample: after one `timestep()` call, `getRenderedTexture`
returns texture 0 (the texture the call rendered to), not the claimed
`buffer[k mod 2] = buffer[1]`. -/
theorem getRenderedTexture_after_one_call :
    getRenderedTexture (pingPongRun 1) = 0 ∧ (0 : ℕ) ≠ 1 % 2 := by
  decide

/-- C5 amended: after `k ≥ 1` calls of `timestep()`, the `k`-th call writes
texture `(k+1) % 2` and reads texture `k % 2`, and `getRenderedTexture` returns
exactly texture `(k+1) % 2` — the buffer the most recent call rendered to, one
off from the claimed `buffer[k mod 2]`. -/
theorem rendered_texture_is_most_recent_write (k : ℕ) (hk : 1 ≤ k) :
    (pingPongTimestep (pingPongRun (k - 1))).2.1 = (k + 1) % 2 ∧
    (pingPongTimestep (pingPongRun (k - 1))).2.2 = k % 2 ∧
    getRenderedTexture (pingPongRun k) = (k + 1) % 2 := by
  have h := pingPongRun_step (k - 1)
  have h2 := pingPongRun_step k
  refine ⟨?_, ?_, ?_⟩
  · show (pingPongRun (k - 1)).step = (k + 1) % 2
    rw [h]; omega
  · show ((pingPongRun (k - 1)).step + 1) % 2 = k % 2
    rw [h]; omega
  · show ((pingPongRun k).step + 1) % 2 = (k + 1) % 2
    rw [h2]; omega

/-- Witness for `rendered_texture_is_most_recent_write` at `k = 1`. -/
theorem rendered_texture_witness :
    1 ≤ 1 ∧
    ((pingPongTimestep (pingPongRun (1 - 1))).2.1 = (1 + 1) % 2 ∧
     (pingPongTimestep (pingPongRun (1 - 1))).2.2 = 1 % 2 ∧
     getRenderedTexture (pingPongRun 1) = (1 + 1) % 2) :=
  ⟨by decide, rendered_texture_is_most_recent_write 1 (by decide)⟩

/-- C6 counterexample: requesting `xResolution = 1024` against adapter limits
of 256 makes `init()` complete normally (it merely records `false` in both
capability flags and skips building the pipeline — `init` has no throw on this
path), and the distinguishable unsupported-configuration error is then raised
by the first `step()` call, contradicting the claim that `step()` is never the
first point where the failure surfaces. -/
theorem capability_error_first_raised_by_step :
    workgroupInit 256 256 1024 =
      { workgroupSizeLimitAvailable := false
        invocationLimitAvailable := false
        pipelineBuilt := false } ∧
    workgroupStep (workgroupInit 256 256 1024) = .error .workgroupSizeX :=
  ⟨rfl, rfl⟩

/-- C6 amended: when the requested dispatch width exceeds a backend limit, the
failure is recorded by `init()` in queryable capability flags
(`isWorkgroupSizeLimitAvailable` / `isInvocationLimitAvailable`), `init()`
itself completes without raising, and the distinguishable error — one variant
per exceeded limit — is thrown by `step()`; `step()` succeeds exactly when both
limits accommodate `xResolution`. -/
theorem capability_flags_and_step_errors (wg inv n : ℕ) :
    (workgroupInit wg inv n).workgroupSizeLimitAvailable = decide (n ≤ wg) ∧
    (workgroupInit wg inv n).invocationLimitAvailable = decide (n ≤ inv) ∧
    (workgroupStep (workgroupInit wg inv n) = .ok () ↔ n ≤ wg ∧ n ≤ inv) ∧
    (¬ n ≤ wg → workgroupStep (workgroupInit wg inv n) = .error .workgroupSizeX) ∧
    (n ≤ wg → ¬ n ≤ inv →
      workgroupStep (workgroupInit wg inv n) = .error .invocationsPerWorkgroup) := by
  by_cases h1 : n ≤ wg <;> by_cases h2 : n ≤ inv <;>
    simp [workgroupInit, workgroupStep, h1, h2]

/-- C9: evaluation at the failing input.  For `nPoints = 3` samples that are
identically `(1, 0)` on a length-6 grid, `simpson` returns 2: its loop
`for (i=1; i<nPoints-2; i++)` never reaches the second-to-last sample, so the
`4|Ψ₁|²` term of Simpson's rule is dropped (weights 1,_,1 instead of 1,4,1).
Composite Simpson's rule — and the claim — give 6, as does the (correct)
trapezoidal routine `integrateWaveFunction`. -/
theorem simpson_drops_second_to_last_sample :
    simpson (fun _ => ((1 : ℚ), 0)) 3 6 = 2 ∧
    specSimpson (fun _ => ((1 : ℚ), 0)) 3 6 = 6 ∧
    integrateWaveFunction (fun _ => ((1 : ℚ), 0)) 3 6 = 6 := by
  have hico : Finset.Ico 1 2 = {1} := rfl
  refine ⟨?_, ?_, ?_⟩ <;>
    norm_num [simpson, specSimpson, integrateWaveFunction, normSq,
      Finset.sum_range_succ, Finset.Ico_self, hico]

/-- Element lookup in the dispatch list of one `step(count)` call. -/
theorem stepDispatches_getD (c j : ℕ) (h : j < c) :
    (stepDispatches c).getD j (0, 0) = waveFunctionBindGroup (j % 2) := by
  simp [stepDispatches, List.getD_eq_getElem?_getD, List.getElem?_map,
    List.getElem?_range, h]

/-- C10: each call of `step(count)` restarts the ping-pong rotation at 0.  The
`i`-th dispatch within a call reads wave-function buffer `i % 2` and writes
buffer `(i+1) % 2` regardless of call history (`stepDispatches` depends only on
`count`; the loop counter is call-local and no rotation index survives the
call).  Hence after a call with an odd count — whose final dispatch wrote
buffer 1 — the next call's first dispatch reads buffer 0, which is not the most
recently written buffer. -/
theorem step_restarts_buffer_rotation (prevCount count i : ℕ)
    (hprev : prevCount % 2 = 1) (hcount : 0 < count) (hi : i < count) :
    (stepDispatches count).getD i (0, 0) = (i % 2, (i + 1) % 2) ∧
    ((stepDispatches count).getD 0 (0, 0)).1 = 0 ∧
    ((stepDispatches prevCount).getD (prevCount - 1) (0, 0)).2 = 1 ∧
    ((stepDispatches count).getD 0 (0, 0)).1 ≠
      ((stepDispatches prevCount).getD (prevCount - 1) (0, 0)).2 := by
  have key : ∀ c j, j < c → (stepDispatches c).getD j (0, 0) = (j % 2, (j + 1) % 2) := by
    intro c j hj
    rw [stepDispatches_getD c j hj]
    rcases Nat.mod_two_eq_zero_or_one j with h | h
    · simp [waveFunctionBindGroup, h]
      omega
    · simp [waveFunctionBindGroup, h]
      omega
  have h0 : ((stepDispatches count).getD 0 (0, 0)).1 = 0 := by
    rw [key count 0 hcount]
  have hlast : ((stepDispatches prevCount).getD (prevCount - 1) (0, 0)).2 = 1 := by
    rw [key prevCount (prevCount - 1) (by omega)]
    simp only
    omega
  exact ⟨key count i hi, h0, hlast, by rw [h0, hlast]; exact Nat.zero_ne_one⟩

/-- Witness for `step_restarts_buffer_rotation` with a previous `step(3)` call
and a following `step(2)` call. -/
theorem step_restarts_witness :
    (3 % 2 = 1 ∧ 0 < 2 ∧ 1 < 2) ∧
    ((stepDispatches 2).getD 1 (0, 0) = (1 % 2, (1 + 1) % 2) ∧
     ((stepDispatches 2).getD 0 (0, 0)).1 = 0 ∧
     ((stepDispatches 3).getD (3 - 1) (0, 0)).2 = 1 ∧
     ((stepDispatches 2).getD 0 (0, 0)).1 ≠
       ((stepDispatches 3).getD (3 - 1) (0, 0)).2) :=
  ⟨⟨by decide, by decide, by decide⟩,
   step_restarts_buffer_rotation 3 2 1 (by decide) (by decide) (by decide)⟩

/-- C3: at every interior grid point `1 ≤ i ≤ N-2`, one invocation of the
three-buffer leapfrog kernel computes
`Ψnext.Re[i] = Ψold.Re[i] - dt*((Ψ.Im[i+1] - 2Ψ.Im[i] + Ψ.Im[i-1])/dx² - 2V[i]·Ψ.Im[i])`
and
`Ψnext.Im[i] = Ψold.Im[i] + dt*((Ψ.Re[i+1] - 2Ψ.Re[i] + Ψ.Re[i-1])/dx² - 2V[i]·Ψ.Re[i])`
with `dx = L/(N-1)`.  The right-hand side mentions only the old and current
buffers — in particular the result is independent of `updPrev`, the prior
contents of the distinct write buffer. -/
theorem leapfrogTimeStep_interior {α : Type*} [Field α] (dt length : α)
    (N : ℕ) (V : ℕ → α) (oldWF wf updPrev : ℕ → α × α) (i : ℕ)
    (h1 : 1 ≤ i) (h2 : i ≤ N - 2) (h3 : 3 ≤ N) (h32 : N ≤ 4294967295) :
    leapfrogTimeStep dt length N V oldWF wf updPrev i =
      ((oldWF i).1 - dt * (((wf (i + 1)).2 - 2 * (wf i).2 + (wf (i - 1)).2) /
          (length / ((N - 1 : ℕ) : α)) ^ 2 - 2 * V i * (wf i).2),
       (oldWF i).2 + dt * (((wf (i + 1)).1 - 2 * (wf i).1 + (wf (i - 1)).1) /
          (length / ((N - 1 : ℕ) : α)) ^ 2 - 2 * V i * (wf i).1)) := by
  have hr : rightNeighborIndex i N = i + 1 := by
    unfold rightNeighborIndex u32SubOne u32Size; omega
  have hl : leftNeighborIndex i = i - 1 := by
    unfold leftNeighborIndex u32SubOne u32Size; omega
  have hd : u32SubOne N = N - 1 := by unfold u32SubOne u32Size; omega
  have hni : ¬ N ≤ i := by omega
  simp only [leapfrogTimeStep, dxLeapfrogKernel, hr, hl, hd, if_neg hni,
    Prod.mk.injEq]
  constructor <;> ring

/-- Witness for `leapfrogTimeStep_interior` over `ℚ` at `N = 4`, `i = 1` with
constant buffers. -/
theorem leapfrogTimeStep_interior_witness :
    ((1 : ℕ) ≤ 1 ∧ (1 : ℕ) ≤ 4 - 2 ∧ (3 : ℕ) ≤ 4 ∧ (4 : ℕ) ≤ 4294967295) ∧
    leapfrogTimeStep (1 : ℚ) 3 4 (fun _ => 1) (fun _ => (1, 2)) (fun _ => (3, 5))
        (fun _ => (0, 0)) 1 =
      ((1 : ℚ) - 1 * (((5 : ℚ) - 2 * 5 + 5) / ((3 : ℚ) / ((4 - 1 : ℕ) : ℚ)) ^ 2 - 2 * 1 * 5),
       (2 : ℚ) + 1 * (((3 : ℚ) - 2 * 3 + 3) / ((3 : ℚ) / ((4 - 1 : ℕ) : ℚ)) ^ 2 - 2 * 1 * 3)) :=
  ⟨⟨by decide, by decide, by decide, by decide⟩,
   leapfrogTimeStep_interior 1 3 4 (fun _ => 1) (fun _ => (1, 2)) (fun _ => (3, 5))
     (fun _ => (0, 0)) 1 (by decide) (by decide) (by decide) (by decide)⟩

/-- C8: the real-part pass of the staggered scheme saves the pre-update real
value into `oldWaveFunction[i].x`, writes only the real component of
`waveFunction[i]`, leaves the imaginary component of every element of both
buffers unchanged, and its output real value depends on other grid points only
through their imaginary components (it reads both components of point `i`
itself); the imaginary-part pass is the exact mirror. -/
theorem staggered_passes_touch_only_their_component {α : Type*} [Field α]
    (dt length : α) (N : ℕ) (V : ℕ → α) (wf old : ℕ → α × α) (i : ℕ) :
    ((realPartTimeStep dt length N V wf old).1 i).2 = (wf i).2 ∧
    ((realPartTimeStep dt length N V wf old).2 i).2 = (old i).2 ∧
    (i < N → ((realPartTimeStep dt length N V wf old).2 i).1 = (wf i).1) ∧
    (∀ wf2 : ℕ → α × α, (∀ j, (wf2 j).2 = (wf j).2) → wf2 i = wf i →
      ((realPartTimeStep dt length N V wf2 old).1 i).1 =
        ((realPartTimeStep dt length N V wf old).1 i).1) ∧
    ((imaginaryPartTimeStep dt length N V wf old).1 i).1 = (wf i).1 ∧
    ((imaginaryPartTimeStep dt length N V wf old).2 i).1 = (old i).1 ∧
    (i < N → ((imaginaryPartTimeStep dt length N V wf old).2 i).2 = (wf i).2) ∧
    (∀ wf2 : ℕ → α × α, (∀ j, (wf2 j).1 = (wf j).1) → wf2 i = wf i →
      ((imaginaryPartTimeStep dt length N V wf2 old).1 i).2 =
        ((imaginaryPartTimeStep dt length N V wf old).1 i).2) := by
  refine ⟨?_, ?_, ?_, ?_, ?_, ?_, ?_, ?_⟩
  · by_cases h : N ≤ i <;> simp [realPartTimeStep, h]
  · by_cases h : N ≤ i <;> simp [realPartTimeStep, h]
  · intro hlt
    simp [realPartTimeStep, Nat.not_le.mpr hlt]
  · intro wf2 hcomp hpoint
    by_cases h : N ≤ i
    · simp [realPartTimeStep, h, hpoint]
    · simp only [realPartTimeStep, if_neg h]
      simp only [hcomp, hpoint]
  · by_cases h : N ≤ i <;> simp [imaginaryPartTimeStep, h]
  · by_cases h : N ≤ i <;> simp [imaginaryPartTimeStep, h]
  · intro hlt
    simp [imaginaryPartTimeStep, Nat.not_le.mpr hlt]
  · intro wf2 hcomp hpoint
    by_cases h : N ≤ i
    · simp [imaginaryPartTimeStep, h, hpoint]
    · simp only [imaginaryPartTimeStep, if_neg h]
      simp only [hcomp, hpoint]

/-- C7: when `vp*dt = dx` the Mur coefficient `(vp*dt - dx)/(vp*dt + dx)` is
zero, and both boundary kernels then write, at each edge, exactly the
pre-stencil-update value of the interior neighbor one grid step in:
`recomputeBoundary` (part_002) stores `waveFunction[1]` at edge 0 and
`waveFunction[N-2]` at edge `N-1`, and `recomputeRealBoundary` (part_009)
stores the saved pre-update reals `oldWaveFunction[1].x` / `oldWaveFunction[N-2].x`
while keeping the edge's imaginary component.  Both kernels are total — the
degenerate case completes normally, it is not an error path. -/
theorem mur_boundary_degenerate_coefficient {α : Type*} [LinearOrderedField α]
    (phaseVelocity dt length : α) (N : ℕ) (wf upd old : ℕ → α × α)
    (h3 : 3 ≤ N) (h32 : N ≤ 4294967295)
    (hvp : phaseVelocity * dt = dxMurKernel length N)
    (hdx : 0 < dxMurKernel length N) :
    recomputeBoundary phaseVelocity dt length N wf upd 0 = wf 1 ∧
    recomputeBoundary phaseVelocity dt length N wf upd (N - 1) = wf (N - 2) ∧
    recomputeRealBoundary phaseVelocity dt length N wf old 0 =
      ((old 1).1, (wf 0).2) ∧
    recomputeRealBoundary phaseVelocity dt length N wf old (N - 1) =
      ((old (N - 2)).1, (wf (N - 1)).2) := by
  have he0 : murEdgeIndex 0 N = 0 := by
    simp [murEdgeIndex]
  have he1 : murEdgeIndex 1 N = N - 1 := by
    unfold murEdgeIndex u32SubOne u32Size
    omega
  have hn0 : murNeighborIndex 0 N = 1 := by
    unfold murNeighborIndex murOffset murEdgeIndex u32SubOne u32Size
    omega
  have hn1 : murNeighborIndex 1 N = N - 2 := by
    unfold murNeighborIndex murOffset murEdgeIndex u32SubOne u32Size
    omega
  have hcoef : (phaseVelocity * dt - dxMurKernel length N) /
      (phaseVelocity * dt + dxMurKernel length N) = 0 := by
    rw [hvp, sub_self, zero_div]
  have hne : N - 1 ≠ 0 := by omega
  refine ⟨?_, ?_, ?_, ?_⟩
  · simp [recomputeBoundary, he0, hn0, hcoef]
  · simp [recomputeBoundary, he0, he1, hn1, hcoef, hne]
  · simp [recomputeRealBoundary, he0, hn0, hcoef]
  · simp [recomputeRealBoundary, he0, he1, hn1, hcoef, hne]

/-- Witness for `mur_boundary_degenerate_coefficient` over `ℚ` with `N = 4`,
`L = 3`, `vp = dt = 1`, so that `vp*dt = dx = 1`. -/
theorem mur_boundary_degenerate_witness :
    ((3 : ℕ) ≤ 4 ∧ (4 : ℕ) ≤ 4294967295 ∧
     (1 : ℚ) * 1 = dxMurKernel 3 4 ∧ (0 : ℚ) < dxMurKernel 3 4) ∧
    (recomputeBoundary (1 : ℚ) 1 3 4 (fun j => ((j : ℚ), (j : ℚ) + 1))
        (fun _ => (9, 9)) 0 = (((1 : ℕ) : ℚ), ((1 : ℕ) : ℚ) + 1) ∧
     recomputeBoundary (1 : ℚ) 1 3 4 (fun j => ((j : ℚ), (j : ℚ) + 1))
        (fun _ => (9, 9)) (4 - 1) = (((4 - 2 : ℕ) : ℚ), ((4 - 2 : ℕ) : ℚ) + 1) ∧
     recomputeRealBoundary (1 : ℚ) 1 3 4 (fun j => ((j : ℚ), (j : ℚ) + 1))
        (fun j => ((j : ℚ) + 5, (j : ℚ) + 6)) 0 =
       (((1 : ℕ) : ℚ) + 5, ((0 : ℕ) : ℚ) + 1) ∧
     recomputeRealBoundary (1 : ℚ) 1 3 4 (fun j => ((j : ℚ), (j : ℚ) + 1))
        (fun j => ((j : ℚ) + 5, (j : ℚ) + 6)) (4 - 1) =
       (((4 - 2 : ℕ) : ℚ) + 5, ((4 - 1 : ℕ) : ℚ) + 1)) :=
  ⟨⟨by decide, by decide,
    by norm_num [dxMurKernel, u32SubOne, u32Size],
    by norm_num [dxMurKernel, u32SubOne, u32Size]⟩,
   mur_boundary_degenerate_coefficient 1 1 3 4 (fun j => ((j : ℚ), (j : ℚ) + 1))
     (fun _ => (9, 9)) (fun j => ((j : ℚ) + 5, (j : ℚ) + 6)) (by decide) (by decide)
     (by norm_num [dxMurKernel, u32SubOne, u32Size])
     (by norm_num [dxMurKernel, u32SubOne, u32Size])⟩

/-- C4: for every grid point `i` (at `x = i*L/(N-1)`), every time `t` and every
width `w > 0`, the wave-packet shader's `computePsi` computes exactly the
closed-form free-particle Gaussian solution stated in the specification, as an
identity of formulas over any field interpretation of the transcendental
builtins. -/
theorem computePsi_matches_spec {α : Type*} [LinearOrderedField α]
    (ops : TranscendentalOps α) (length x0 w k t : α) (N i : ℕ)
    (hw : 0 < w) (hN1 : 1 ≤ N) (hN32 : N ≤ 4294967295) :
    computePsi ops length N x0 w k i t = specPsi ops length N x0 w k i t := by
  have hd : u32SubOne N = N - 1 := by unfold u32SubOne u32Size; omega
  simp only [computePsi, specPsi, hd]
  rw [show (0.25 : α) = 1 / 4 by norm_num, show (0.5 : α) = 1 / 2 by norm_num]
  rw [show w * w = w ^ 2 by ring]
  set X := (i : α) * length / ((N - 1 : ℕ) : α) with hX
  rw [show (X - x0 - k * t) * (X - x0 - k * t) = (X - x0 - k * t) ^ 2 by ring]
  rw [show w ^ 2 * w ^ 2 + 4 * t * t = w ^ 4 + 4 * t ^ 2 by ring]
  rw [show k * k = k ^ 2 by ring]
  rw [show ops.atan (2 * t / w ^ 2) / 2 = 1 / 2 * ops.atan (2 * t / w ^ 2) by ring]

/-- Witness for `computePsi_matches_spec` over `ℚ` with the sample operations,
at `w = 2`, `N = 4`, `i = 2`, `t = 1`. -/
theorem computePsi_matches_spec_witness :
    ((0 : ℚ) < 2 ∧ (1 : ℕ) ≤ 4 ∧ (4 : ℕ) ≤ 4294967295) ∧
    computePsi sampleOps (1 : ℚ) 4 1 2 1 2 1 = specPsi sampleOps (1 : ℚ) 4 1 2 1 2 1 :=
  ⟨⟨by norm_num, by decide, by decide⟩,
   computePsi_matches_spec sampleOps 1 1 2 1 1 4 2 (by norm_num) (by decide) (by decide)⟩

end GpgpuSchrodinger
